import Mathlib

/-!
Verification of the subtitle-to-pdf repository's parsing layer.

The repository contains two source files:
  * `subtitle_to_pdf.py` — `parse_ebu_tt`, `parse_vtt`, and the parser
    dispatch inside `process_csv`;
  * `src/main.py`       — `parse_subtitle_xml`.

This file gives a shallow embedding of those functions and proves or refutes
the specification claims about them.  Python strings are modelled by `String`
(with the primitive operations `split`, `strip`, `join`, `isdigit`,
`startswith`, `endswith`, `lower` re-implemented structurally on the
character list `String.data`, so that all definitions evaluate inside the
kernel), Python lists by `List`, the element tree produced by
`xml.etree.ElementTree` by the inductive type `XmlElem` below, and a raw XML
input by `Except String XmlElem`: the result of `ET.fromstring` / `ET.parse`,
either a `ParseError` message or the root element.  Logging calls have no
effect on the data flow and are omitted.  `\n` is the line separator
modelled by `pySplitlines`.
-/

namespace SubtitleToPdf

/-! ### Python string primitives, on `String.data` -/

/-- Python `str.split(sep)` for a one-character separator, on character
lists: `''.split(s) = ['']`, separators delimit (possibly empty) segments. -/
def splitOnCharL (sep : Char) : List Char → List (List Char)
  | [] => [[]]
  | c :: rest =>
    if c = sep then [] :: splitOnCharL sep rest
    else match splitOnCharL sep rest with
      | [] => [[c]]
      | seg :: segs => (c :: seg) :: segs

/-- Python whitespace (the ASCII characters stripped by `str.strip()`). -/
def pyIsspace (c : Char) : Bool :=
  c = ' ' || c = '\t' || c = '\n' || c = '\r' || c = '\x0b' || c = '\x0c'

/-- Python `str.strip()` on a character list. -/
def stripL (cs : List Char) : List Char :=
  ((cs.dropWhile pyIsspace).reverse.dropWhile pyIsspace).reverse

/-- Python `str.strip()`. -/
def pyStrip (s : String) : String := ⟨stripL s.data⟩

/-- Python `pat in s` for strings: some occurrence of `pat` starts at some
position of `cs`. -/
def hasSubstrL (pat : List Char) : List Char → Bool
  | [] => pat.isEmpty
  | c :: rest => pat.isPrefixOf (c :: rest) || hasSubstrL pat rest

/-- The characters of `cs` before the first occurrence of `pat` (all of `cs`
when `pat` does not occur).  For non-empty `pat` this is exactly
`s.split(pat)[0]` in Python: the first segment of a `split` is the text
before the first separator occurrence, and `split` never returns an empty
list. -/
def beforeFirstL (pat : List Char) : List Char → List Char
  | [] => []
  | c :: rest => if pat.isPrefixOf (c :: rest) then [] else c :: beforeFirstL pat rest

/-- Python `str.isdigit()` restricted to ASCII digits: non-empty and all
characters decimal digits. -/
def pyIsdigit (s : String) : Bool :=
  !s.data.isEmpty && s.data.all Char.isDigit

/-- Python `" ".join(parts)`. -/
def pyJoinSpace : List String → String
  | [] => ""
  | [t] => t
  | t :: ts => t ++ " " ++ pyJoinSpace ts

/-- Python `s.startswith(p)`. -/
def pyStartswith (s p : String) : Bool := p.data.isPrefixOf s.data

/-- Python `s.endswith(p)`. -/
def pyEndswith (s p : String) : Bool := p.data.isSuffixOf s.data

/-- Python `s.lower()` (ASCII case folding). -/
def pyLower (s : String) : String := ⟨s.data.map Char.toLower⟩

/-- Python `str.splitlines()` for `\n`-separated text: split on `\n`; a
trailing newline does not produce a trailing empty line. -/
def pySplitlines (s : String) : List String :=
  let parts := (splitOnCharL '\n' s.data).map fun cs => String.mk cs
  if parts.getLast? = some "" then parts.dropLast else parts

/-! ### `parse_vtt` (`subtitle_to_pdf.py`, lines 61–111) -/

/-- Python `("-->" in item)`: the line contains the arrow token. -/
def containsArrow (item : String) : Bool :=
  hasSubstrL "-->".data item.data

/-- Lines 84–85 / 103–104 of `subtitle_to_pdf.py`:
`parts = time_line.split("-->"); start_time = parts[0].strip()`.
`parts[0]` is the text before the first arrow; the
`if parts else "00:00:00.000"` default is unreachable because Python's
`split` never returns an empty list. -/
def startOfTimeLine (timeLine : String) : String :=
  pyStrip ⟨beforeFirstL "-->".data timeLine.data⟩

/-- Python `line.strip() == ""`. -/
def isBlank (line : String) : Bool := (stripL line.data).isEmpty

/-- The block-scanning loop of `parse_vtt` (lines 76–80 and 96–100): walk the
block's lines; a line containing `-->` overwrites `time_line` (stripped), any
other line is appended (stripped) to `text_lines`. -/
def splitBlock (timeLine : Option String) (textLines : List String) :
    List String → Option String × List String
  | [] => (timeLine, textLines)
  | item :: rest =>
    if containsArrow item then splitBlock (some (pyStrip item)) textLines rest
    else splitBlock timeLine (textLines ++ [pyStrip item]) rest

/-- Result pair `(time_line, text_lines)` after scanning a whole block. -/
def splitBlockLines (block : List String) : Option String × List String :=
  splitBlock none [] block

/-- The per-block cue extraction of `parse_vtt` (lines 76–88, repeated at
96–107): scan the block, drop pure-digit candidate text lines, and if a
timing line was found and the space-joined stripped text is non-empty,
produce the `(start_time, text_content)` pair; otherwise the block yields
nothing. -/
def blockCue (block : List String) : Option (String × String) :=
  let scanned := splitBlockLines block
  let textLines := scanned.2.filter fun t => !pyIsdigit t
  match scanned.1 with
  | none => none
  | some timeLine =>
    let startTime := startOfTimeLine timeLine
    let textContent := pyStrip (pyJoinSpace textLines)
    if textContent.data.isEmpty then none else some (startTime, textContent)

/-- The emitted subtitle string `f"[{start_time}]: {text_content}"`. -/
def formatCue (c : String × String) : String :=
  "[" ++ c.1 ++ "]: " ++ c.2

/-- The main loop of `parse_vtt` (lines 70–107): accumulate non-blank lines
into `block`; a blank line flushes a non-empty block through the per-block
extraction; the final block is flushed at end of input. -/
def vttLoop (subs : List String) (block : List String) :
    List String → List String
  | [] =>
    if block.isEmpty then subs
    else subs ++ ((blockCue block).map formatCue).toList
  | line :: rest =>
    if isBlank line then
      if block.isEmpty then vttLoop subs [] rest
      else vttLoop (subs ++ ((blockCue block).map formatCue).toList) [] rest
    else vttLoop subs (block ++ [line]) rest

/-- Lines 65–68 of `parse_vtt`: split into lines and drop the first line when
it is a `WEBVTT` header. -/
def vttLines (content : String) : List String :=
  let lines0 := pySplitlines content
  match lines0 with
  | [] => lines0
  | l :: rest => if pyStartswith (pyStrip l) "WEBVTT" then rest else lines0

/-- Model of `parse_vtt` from `subtitle_to_pdf.py` (lines 61–111).  The Python body is
wrapped in `try/except` returning `None`, but the body is pure list and
string processing that raises no exception, so the function is modelled as
total, returning the list of formatted subtitle strings. -/
def parse_vtt (content : String) : List String :=
  vttLoop [] [] (vttLines content)

/-- The blank-line block segmentation implicit in the `parse_vtt` loop:
maximal runs of non-blank (after stripping) lines, `block` being the run
accumulated so far. -/
def blocksFrom (block : List String) : List String → List (List String)
  | [] => if block.isEmpty then [] else [block]
  | line :: rest =>
    if isBlank line then
      if block.isEmpty then blocksFrom [] rest
      else block :: blocksFrom [] rest
    else blocksFrom (block ++ [line]) rest

/-- The blocks of a VTT input. -/
def vttBlocks (content : String) : List (List String) :=
  blocksFrom [] (vttLines content)

/-! ### XML model and the two TTML parsers -/

/-- An `xml.etree.ElementTree` element: tag, attribute list, `.text` (the
text before the first child), children in document order, and `.tail` (the
text after this element's end tag, inside the parent). -/
inductive XmlElem : Type where
  | mk (tag : String) (attrs : List (String × String)) (text : Option String)
      (children : List XmlElem) (tail : Option String)

def XmlElem.tag : XmlElem → String
  | .mk t _ _ _ _ => t

def XmlElem.attrs : XmlElem → List (String × String)
  | .mk _ a _ _ _ => a

def XmlElem.text : XmlElem → Option String
  | .mk _ _ t _ _ => t

def XmlElem.children : XmlElem → List XmlElem
  | .mk _ _ _ c _ => c

def XmlElem.tail : XmlElem → Option String
  | .mk _ _ _ _ t => t

/-- Model of `element.attrib.get(key)` / `element.get(key)`: the value of an
attribute, if present. -/
def getAttr (e : XmlElem) (key : String) : Option String :=
  (e.attrs.find? fun kv => kv.1 == key).map fun kv => kv.2

/-- Python truthiness filter for an optional string (`if self.text:` in
`itertext`, `filter(None, ...)` in `main.py`): contributes the string only
when it is present and non-empty. -/
def textYield : Option String → List String
  | some s => if s.data.isEmpty then [] else [s]
  | none => []

mutual
/-- Model of `element.itertext()`: the element's `.text` if truthy, then for each
child in order its `itertext()` followed by its `.tail` if truthy. -/
def itertext : XmlElem → List String
  | .mk _ _ txt children _ => textYield txt ++ itertextChildren children

def itertextChildren : List XmlElem → List String
  | [] => []
  | c :: cs => (itertext c ++ textYield c.tail) ++ itertextChildren cs
end

mutual
/-- The strict descendants of an element, in document (pre)order. -/
def descendants : XmlElem → List XmlElem
  | .mk _ _ _ children _ => descendantsL children

def descendantsL : List XmlElem → List XmlElem
  | [] => []
  | c :: cs => (c :: descendants c) ++ descendantsL cs
end

/-- Model of `root.findall(".//" + tag)`: every strict descendant whose expanded tag
equals `tag`, in document order.  (`root.findall(".//tt:p", ns)` with a
namespace map is the same query with `tt:` expanded to the mapped URI.) -/
def findallTag (tag : String) (root : XmlElem) : List XmlElem :=
  (descendants root).filter fun e => e.tag == tag

/-- The fixed namespaced paragraph tag used by `parse_ebu_tt`
(`namespace = {'tt': 'http://www.w3.org/ns/ttml'}`, query `.//tt:p`). -/
def ttmlNamespaceP : String := "\x7bhttp://www.w3.org/ns/ttml\x7dp"

/-- The per-paragraph extraction of `parse_ebu_tt` (lines 50–54):
`start_time = p.attrib.get("begin", "00:00:00.000")`,
`text_content = " ".join(p.itertext()).strip()`, and the cue is kept only
when `text_content` is truthy. -/
def ebuCue (p : XmlElem) : Option (String × String) :=
  let startTime := (getAttr p "begin").getD "00:00:00.000"
  let textContent := pyStrip (pyJoinSpace (itertext p))
  if textContent.data.isEmpty then none else some (startTime, textContent)

/-- Model of `parse_ebu_tt` from `subtitle_to_pdf.py` (lines 43–58).  `ET.fromstring`
is modelled by the `Except` input: a `ParseError` is caught by the
`except ET.ParseError` handler and the function returns `None`; otherwise
every `.//tt:p` descendant contributes its formatted cue when its text is
non-empty. -/
def parse_ebu_tt (input : Except String XmlElem) : Option (List String) :=
  match input with
  | .error _ => none
  | .ok root =>
    some ((findallTag ttmlNamespaceP root).filterMap
      fun p => (ebuCue p).map formatCue)

/-- Model of `namespace = root.tag.split('}')[0] + '}'` from `src/main.py` (line 29):
the root tag up to and including the first `}`. -/
def rootNamespaceOf (root : XmlElem) : String :=
  ⟨beforeFirstL ['\x7d'] root.tag.data ++ ['\x7d']⟩

/-- The per-paragraph extraction of `src/main.py` (lines 34–46):
`timestamp = p.get('begin')`; each direct child that is a `span` appends its
`.text`, each `br` appends `"\n"`, other children are ignored; the text is
`" ".join(filter(None, text_parts))`.  The cue is appended unconditionally. -/
def mainCueOfP (ns : String) (p : XmlElem) : Option String × String :=
  let timestamp := getAttr p "begin"
  let textParts : List (Option String) := p.children.flatMap fun element =>
    if element.tag == ns ++ "span" then [element.text]
    else if element.tag == ns ++ "br" then [some "\n"]
    else []
  (timestamp, pyJoinSpace (textParts.flatMap textYield))

/-- Model of `parse_subtitle_xml` from `src/main.py` (lines 15–48).  `ET.parse` is
modelled by the `Except` input: a `ParseError` propagates to the caller
(the function has no handler); otherwise the namespace is taken from the
root tag and every `.//{ns}p` descendant yields a `(timestamp, text)`
pair. -/
def parse_subtitle_xml (input : Except String XmlElem) :
    Except String (List (Option String × String)) :=
  match input with
  | .error e => .error e
  | .ok root =>
    let ns := rootNamespaceOf root
    .ok ((findallTag (ns ++ "p") root).map (mainCueOfP ns))

/-! ### The parser dispatch (`process_csv`, lines 177–182) -/

inductive ParserChoice : Type where
  | vtt
  | ebuTt
deriving DecidableEq

/-- The dispatch conditional of `process_csv` (line 179):
`if url.lower().endswith(".vtt") or content.strip().startswith("WEBVTT")`
run `parse_vtt`, else run `parse_ebu_tt`. -/
def chooseParser (url content : String) : ParserChoice :=
  if pyEndswith (pyLower url) ".vtt" || pyStartswith (pyStrip content) "WEBVTT" then
    ParserChoice.vtt
  else ParserChoice.ebuTt

/-! ### Structural lemmas about `parse_vtt` -/

theorem vttLoop_eq_blocks (lines : List String) :
    ∀ subs block, vttLoop subs block lines =
      subs ++ (blocksFrom block lines).filterMap
        (fun b => (blockCue b).map formatCue) := by
  induction lines with
  | nil =>
    intro subs block
    by_cases h : block.isEmpty
    · simp [vttLoop, blocksFrom, h, Option.toList]
    · cases hbc : blockCue block <;>
        simp [vttLoop, blocksFrom, h, hbc, Option.toList]
  | cons line rest ih =>
    intro subs block
    by_cases hblank : isBlank line
    · by_cases hblock : block.isEmpty
      · simp [vttLoop, blocksFrom, hblank, hblock, ih]
      · cases hbc : blockCue block <;>
          simp [vttLoop, blocksFrom, hblank, hblock, ih, hbc, Option.toList]
    · simp [vttLoop, blocksFrom, hblank, ih]

/-- Lemma: `parse_vtt` processes the input block by block: each block contributes
its extracted cue (if any) independently of every other block. -/
theorem parse_vtt_eq_blocks (content : String) :
    parse_vtt content =
      (vttBlocks content).filterMap (fun b => (blockCue b).map formatCue) := by
  simpa [parse_vtt, vttBlocks] using
    vttLoop_eq_blocks (vttLines content) [] []

theorem splitBlock_snd (block : List String) :
    ∀ tl txt, (splitBlock tl txt block).2 =
      txt ++ (block.filter fun l => !containsArrow l).map pyStrip := by
  induction block with
  | nil => intro tl txt; simp [splitBlock]
  | cons item rest ih =>
    intro tl txt
    by_cases h : containsArrow item
    · simp [splitBlock, h, ih]
    · simp [splitBlock, h, ih]

theorem splitBlock_fst (block : List String) :
    ∀ tl txt, (splitBlock tl txt block).1 =
      ((block.filter fun l => containsArrow l).map
        (fun l => some (pyStrip l))).getLastD tl := by
  induction block with
  | nil => intro tl txt; simp [splitBlock]
  | cons item rest ih =>
    intro tl txt
    by_cases h : containsArrow item
    · rw [show splitBlock tl txt (item :: rest) =
          splitBlock (some (pyStrip item)) txt rest from by simp [splitBlock, h]]
      rw [ih]
      rw [show (item :: rest).filter (fun l => containsArrow l) =
          item :: rest.filter (fun l => containsArrow l) from by simp [h]]
      rw [List.map_cons, List.getLastD_cons]
    · rw [show splitBlock tl txt (item :: rest) =
          splitBlock tl (txt ++ [pyStrip item]) rest from by simp [splitBlock, h]]
      rw [ih]
      rw [show (item :: rest).filter (fun l => containsArrow l) =
          rest.filter (fun l => containsArrow l) from by simp [h]]

theorem blockCue_none_of_no_arrow (block : List String)
    (h : ∀ l ∈ block, containsArrow l = false) : blockCue block = none := by
  have hfilter : block.filter (fun l => containsArrow l) = [] := by
    simp [List.filter_eq_nil_iff]
    intro l hl
    simp [h l hl]
  have hfst : (splitBlockLines block).1 = none := by
    rw [splitBlockLines, splitBlock_fst, hfilter]
    rfl
  simp [blockCue, hfst]

theorem blockCue_text_nonempty {block : List String} {c : String × String}
    (h : blockCue block = some c) :
    c.2 = pyStrip (pyJoinSpace
      ((splitBlockLines block).2.filter fun t => !pyIsdigit t)) ∧
    c.2.data.isEmpty = false := by
  cases hs : (splitBlockLines block).1 with
  | none => simp [blockCue, hs] at h
  | some timeLine =>
    simp only [blockCue, hs] at h
    split at h
    · exact absurd h (by simp)
    · rename_i hne
      cases h
      exact ⟨rfl, by simpa using hne⟩

/-- Claim C3: for every input text the WebVTT parser never fails (it is a
total function): it processes the input block by block, a block without a
timing line is silently skipped, and when no block produces a cue the result
is the empty sequence. -/
theorem c3_vtt_never_fails (content : String) :
    parse_vtt content =
      (vttBlocks content).filterMap (fun b => (blockCue b).map formatCue) ∧
    (∀ b, (∀ l ∈ b, containsArrow l = false) → blockCue b = none) ∧
    ((∀ b ∈ vttBlocks content, blockCue b = none) → parse_vtt content = []) := by
  refine ⟨parse_vtt_eq_blocks content, ?_, ?_⟩
  · intro b hb
    exact blockCue_none_of_no_arrow b hb
  · intro hall
    rw [parse_vtt_eq_blocks content]
    rw [List.filterMap_eq_nil_iff]
    intro b hb
    simp [hall b hb]

theorem c3_witness : parse_vtt "no cues here\njust text" = [] :=
  (c3_vtt_never_fails "no cues here\njust text").2.2 (by decide)

/-- Claim C8: in every WebVTT block the candidate text lines that are purely
a decimal number are discarded: every surviving candidate line is not a
pure-digit string, and the emitted cue's text is built from exactly the
surviving lines. -/
theorem c8_digit_lines_discarded (block : List String) :
    (∀ t ∈ (splitBlockLines block).2.filter (fun t => !pyIsdigit t),
      pyIsdigit t = false) ∧
    (∀ c, blockCue block = some c →
      c.2 = pyStrip (pyJoinSpace
        ((splitBlockLines block).2.filter fun t => !pyIsdigit t))) := by
  constructor
  · intro t ht
    have := (List.mem_filter.mp ht).2
    simpa using this
  · intro c hc
    exact (blockCue_text_nonempty hc).1

theorem c8_witness :
    pyIsdigit "Hello" = false ∧
    ("00:00:01.000", "Hello").2 = pyStrip (pyJoinSpace
      ((splitBlockLines ["1", "00:00:01.000 --> 00:00:02.000", "42", "Hello"]).2.filter
        fun t => !pyIsdigit t)) :=
  ⟨(c8_digit_lines_discarded
      ["1", "00:00:01.000 --> 00:00:02.000", "42", "Hello"]).1 "Hello" (by decide),
   (c8_digit_lines_discarded
      ["1", "00:00:01.000 --> 00:00:02.000", "42", "Hello"]).2
      ("00:00:01.000", "Hello") (by decide)⟩

/-- Claim C9: the single-cue WebVTT input
`"1\n00:00:01.000 --> 00:00:03.000\nHello world\n"` (index line, timing
line, one text line, no trailing blank line) parses to exactly one cue with
timestamp `"00:00:01.000"` and text `"Hello world"`. -/
theorem c9_single_cue_roundtrip :
    parse_vtt "1\n00:00:01.000 --> 00:00:03.000\nHello world\n" =
      ["[00:00:01.000]: Hello world"] ∧
    blockCue ["1", "00:00:01.000 --> 00:00:03.000", "Hello world"] =
      some ("00:00:01.000", "Hello world") := by
  constructor
  · decide
  · decide

/-- Claim C10: when a block contains arrow (`-->`) lines, the last such line
is the timing line: the emitted cue's timestamp is the stripped text before
the arrow on that (stripped) last line, and the cue text is built only from
the non-arrow lines of the block. -/
theorem c10_last_arrow_wins (block : List String) (l : String)
    (hl : (block.filter fun x => containsArrow x).getLast? = some l) :
    ∀ c, blockCue block = some c →
      c.1 = startOfTimeLine (pyStrip l) ∧
      c.2 = pyStrip (pyJoinSpace
        (((block.filter fun x => !containsArrow x).map pyStrip).filter
          fun t => !pyIsdigit t)) := by
  intro c hc
  have hfst : (splitBlockLines block).1 = some (pyStrip l) := by
    rw [splitBlockLines, splitBlock_fst]
    rw [List.getLastD_eq_getLast?, List.getLast?_map, hl]
    rfl
  have hsnd : (splitBlockLines block).2 =
      (block.filter fun x => !containsArrow x).map pyStrip := by
    rw [splitBlockLines, splitBlock_snd]
    rfl
  constructor
  · simp only [blockCue, hfst] at hc
    split at hc
    · exact absurd hc (by simp)
    · cases hc
      rfl
  · rw [(blockCue_text_nonempty hc).1, hsnd]

theorem ebuCue_text_nonempty {p : XmlElem} {c : String × String}
    (h : ebuCue p = some c) :
    c.2 = pyStrip (pyJoinSpace (itertext p)) ∧ c.2.data.isEmpty = false := by
  simp only [ebuCue] at h
  split at h
  · exact absurd h (by simp)
  · rename_i hne
    cases h
    exact ⟨rfl, by simpa using hne⟩

/-- Claim C1, amended: every subtitle emitted by `parse_vtt` or
`parse_ebu_tt` is the formatting of a cue whose (already stripped) text is
non-empty.  The claim as stated also covers `parse_subtitle_xml`, which
violates it: it appends every paragraph's cue unconditionally, empty text
included (see the counterexample). -/
theorem c1_nonempty_text :
    (∀ content s, s ∈ parse_vtt content →
      ∃ c, s = formatCue c ∧ c.2.data.isEmpty = false) ∧
    (∀ input l s, parse_ebu_tt input = some l → s ∈ l →
      ∃ c, s = formatCue c ∧ c.2.data.isEmpty = false) := by
  constructor
  · intro content s hs
    rw [parse_vtt_eq_blocks] at hs
    obtain ⟨b, hb, hsome⟩ := List.mem_filterMap.mp hs
    obtain ⟨c, hc, hfc⟩ := Option.map_eq_some'.mp hsome
    exact ⟨c, hfc.symm, (blockCue_text_nonempty hc).2⟩
  · intro input l s hl hs
    cases input with
    | error e => simp [parse_ebu_tt] at hl
    | ok root =>
      simp only [parse_ebu_tt] at hl
      cases hl
      obtain ⟨p, hp, hsome⟩ := List.mem_filterMap.mp hs
      obtain ⟨c, hc, hfc⟩ := Option.map_eq_some'.mp hsome
      exact ⟨c, hfc.symm, (ebuCue_text_nonempty hc).2⟩

theorem c1_witness :
    ∃ c, "[00:00:07.000]: Good evening" = formatCue c ∧
      c.2.data.isEmpty = false :=
  c1_nonempty_text.1 "00:00:07.000 --> 00:00:09.000\nGood evening\n"
    "[00:00:07.000]: Good evening" (by decide)

/-- A TTML document whose only paragraph has a `begin` attribute but no text
content at all. -/
def docEmptyP : XmlElem :=
  XmlElem.mk "\x7bhttp://www.w3.org/ns/ttml\x7dtt" [] none
    [XmlElem.mk "\x7bhttp://www.w3.org/ns/ttml\x7dp"
      [("begin", "00:00:01.000")] none [] none] none

/-- Claim C1 counterexample: `parse_subtitle_xml` emits a cue whose resolved
text is empty instead of dropping it. -/
theorem c1_counterexample :
    parse_subtitle_xml (Except.ok docEmptyP) =
      Except.ok [(some "00:00:01.000", "")] ∧
    ("" : String).data.isEmpty = true := ⟨rfl, rfl⟩

theorem isPrefixOf_single (c x : Char) (xs : List Char) :
    [c].isPrefixOf (x :: xs) = (c == x) := by
  simp [List.isPrefixOf]

theorem beforeFirstL_no_sep (sep : Char) (l1 l2 : List Char)
    (h : ∀ c ∈ l1, c ≠ sep) :
    beforeFirstL [sep] (l1 ++ sep :: l2) = l1 := by
  induction l1 with
  | nil => simp [beforeFirstL, List.isPrefixOf]
  | cons c cs ih =>
    have hc : c ≠ sep := h c (by simp)
    have hpre : [sep].isPrefixOf (c :: (cs ++ sep :: l2)) = false := by
      rw [isPrefixOf_single]
      exact beq_eq_false_iff_ne.mpr (Ne.symm hc)
    have hrest := ih fun a ha => h a (by simp [ha])
    simp [beforeFirstL, hpre, hrest]

theorem rootNamespaceOf_of_tag (root : XmlElem) (uri rest : String)
    (huri : ∀ ch ∈ uri.data, ch ≠ '\x7d')
    (hroot : root.tag = "\x7b" ++ uri ++ "\x7d" ++ rest) :
    rootNamespaceOf root = "\x7b" ++ uri ++ "\x7d" := by
  apply String.ext
  show beforeFirstL ['\x7d'] root.tag.data ++ ['\x7d'] =
    ("\x7b" ++ uri ++ "\x7d").data
  rw [hroot]
  have h1 : ("\x7b" : String).data = ['\x7b'] := rfl
  have h2 : ("\x7d" : String).data = ['\x7d'] := rfl
  have hall : ∀ c ∈ '\x7b' :: uri.data, c ≠ '\x7d' := by
    intro c hcmem
    rcases List.mem_cons.mp hcmem with h | h
    · subst h; decide
    · exact huri c h
  have hbf : beforeFirstL ['\x7d'] (('\x7b' :: uri.data) ++ '\x7d' :: rest.data)
      = '\x7b' :: uri.data := beforeFirstL_no_sep '\x7d' _ _ hall
  simp only [String.data_append, h1, h2]
  rw [show ['\x7b'] ++ uri.data ++ ['\x7d'] ++ rest.data =
    ('\x7b' :: uri.data) ++ '\x7d' :: rest.data by simp]
  rw [hbf]
  simp

/-- Claim C2, amended: `parse_subtitle_xml` determines the governing
namespace from the root element tag (everything up to and including the
first closing brace), so its paragraph matching succeeds for whichever
namespace URI the document declares; `parse_ebu_tt`, by contrast, matches
only the fixed namespace `http://www.w3.org/ns/ttml` (see the
counterexample). -/
theorem c2_root_namespace (uri rest : String) (root : XmlElem)
    (huri : ∀ ch ∈ uri.data, ch ≠ '\x7d')
    (hroot : root.tag = "\x7b" ++ uri ++ "\x7d" ++ rest) :
    rootNamespaceOf root = "\x7b" ++ uri ++ "\x7d" ∧
    parse_subtitle_xml (Except.ok root) =
      Except.ok ((findallTag (("\x7b" ++ uri ++ "\x7d") ++ "p") root).map
        (mainCueOfP ("\x7b" ++ uri ++ "\x7d"))) := by
  have hns := rootNamespaceOf_of_tag root uri rest huri hroot
  refine ⟨hns, ?_⟩
  have hstep : parse_subtitle_xml (Except.ok root) =
      Except.ok ((findallTag (rootNamespaceOf root ++ "p") root).map
        (mainCueOfP (rootNamespaceOf root))) := rfl
  rw [hstep, hns]

/-- A paragraph cue element in a namespace that is not the fixed
`http://www.w3.org/ns/ttml` one. -/
def pOther : XmlElem :=
  XmlElem.mk "\x7bhttp://example.org/other\x7dp"
    [("begin", "00:00:01.000")] none
    [XmlElem.mk "\x7bhttp://example.org/other\x7dspan" [] (some "Hi there")
      [] none] none

/-- A document declaring the namespace `http://example.org/other` and
containing one paragraph cue under it. -/
def docOther : XmlElem :=
  XmlElem.mk "\x7bhttp://example.org/other\x7dtt" [] none [pOther] none

/-- Claim C2 counterexample: on a document declaring a namespace other than
`http://www.w3.org/ns/ttml`, the document has a `p` cue element under its
declared namespace, yet `parse_ebu_tt` finds no cue at all; only
`parse_subtitle_xml` derives the namespace from the root tag and finds it. -/
theorem c2_counterexample :
    findallTag "\x7bhttp://example.org/other\x7dp" docOther = [pOther] ∧
    parse_ebu_tt (Except.ok docOther) = some [] ∧
    parse_subtitle_xml (Except.ok docOther) =
      Except.ok [(some "00:00:01.000", "Hi there")] := ⟨rfl, rfl, rfl⟩

theorem c2_witness :
    rootNamespaceOf docOther =
      "\x7b" ++ "http://example.org/other" ++ "\x7d" ∧
    parse_subtitle_xml (Except.ok docOther) =
      Except.ok ((findallTag
        (("\x7b" ++ "http://example.org/other" ++ "\x7d") ++ "p")
        docOther).map
        (mainCueOfP ("\x7b" ++ "http://example.org/other" ++ "\x7d"))) :=
  c2_root_namespace "http://example.org/other" "tt" docOther (by decide) rfl

/-- Claim C4, amended: on input that is not well-formed XML,
`parse_subtitle_xml` propagates the `ParseError` to its caller unchanged,
while `parse_ebu_tt` catches it (`except ET.ParseError`) and returns `None`
instead of surfacing it; in both cases no partial cue sequence is
produced. -/
theorem c4_parse_error (e : String) :
    parse_ebu_tt (Except.error e) = none ∧
    parse_subtitle_xml (Except.error e) = Except.error e := ⟨rfl, rfl⟩

/-- Claim C4 counterexample: `parse_ebu_tt` maps every parse error to the
same `None` result — the `ParseError` is swallowed, not surfaced to the
caller; `parse_subtitle_xml` is the parser that propagates it. -/
theorem c4_counterexample :
    parse_ebu_tt (Except.error "syntax error: line 1, column 0") = none ∧
    parse_ebu_tt (Except.error "no element found: line 1, column 0") = none ∧
    parse_subtitle_xml (Except.error "syntax error: line 1, column 0") =
      Except.error "syntax error: line 1, column 0" := ⟨rfl, rfl, rfl⟩

theorem c4_witness :
    parse_ebu_tt (Except.error "junk") = none ∧
    parse_subtitle_xml (Except.error "junk") = Except.error "junk" :=
  c4_parse_error "junk"

/-- Claim C5: the dispatcher chooses the WebVTT parser exactly when the
lower-cased URL ends in ".vtt" or the stripped content starts with
"WEBVTT", and the TTML/EBU-TT parser in every other case. -/
theorem c5_dispatch (url content : String) :
    (chooseParser url content = ParserChoice.vtt ↔
      (pyEndswith (pyLower url) ".vtt" = true ∨
       pyStartswith (pyStrip content) "WEBVTT" = true)) ∧
    (chooseParser url content = ParserChoice.ebuTt ↔
      ¬(pyEndswith (pyLower url) ".vtt" = true ∨
        pyStartswith (pyStrip content) "WEBVTT" = true)) := by
  by_cases h1 : pyEndswith (pyLower url) ".vtt" = true <;>
    by_cases h2 : pyStartswith (pyStrip content) "WEBVTT" = true <;>
    simp [chooseParser, h1, h2]

theorem c5_witness :
    chooseParser "http://example.org/subs.VTT" "<tt/>" = ParserChoice.vtt ∧
    chooseParser "http://example.org/subs.xml" "  WEBVTT\nrest" =
      ParserChoice.vtt ∧
    chooseParser "http://example.org/subs.xml" "<tt/>" =
      ParserChoice.ebuTt :=
  ⟨(c5_dispatch "http://example.org/subs.VTT" "<tt/>").1.mpr
      (Or.inl (by decide)),
   (c5_dispatch "http://example.org/subs.xml" "  WEBVTT\nrest").1.mpr
      (Or.inr (by decide)),
   (c5_dispatch "http://example.org/subs.xml" "<tt/>").2.mpr (by decide)⟩

/-- The TTML namespace in expanded-tag notation. -/
def ttmlNs : String := "\x7bhttp://www.w3.org/ns/ttml\x7d"

/-- A TTML paragraph with a `begin` attribute and children
`span`, `br`, `span`. -/
def pSpanBr (b s1 s2 : String) : XmlElem :=
  XmlElem.mk (ttmlNs ++ "p") [("begin", b)] none
    [XmlElem.mk (ttmlNs ++ "span") [] (some s1) [] none,
     XmlElem.mk (ttmlNs ++ "br") [] none [] none,
     XmlElem.mk (ttmlNs ++ "span") [] (some s2) [] none] none

/-- A TTML document with one `span`/`br`/`span` paragraph. -/
def spanBrDoc (b s1 s2 : String) : XmlElem :=
  XmlElem.mk (ttmlNs ++ "tt") [] none [pSpanBr b s1 s2] none

/-- Claim C6, amended: for a `span`/`br`/`span` paragraph,
`parse_subtitle_xml` lets each `span` child contribute its text, each `br`
child contribute the marker `"\n"`, and ignores other children — but it
joins ALL contributed parts with single spaces, the line-break marker
included: the resulting text is `s1 ++ " " ++ "\n" ++ " " ++ s2`, not the
literal insertion `s1 ++ "\n" ++ s2`. -/
theorem c6_span_br_text (b s1 s2 : String)
    (h1 : s1.data.isEmpty = false) (h2 : s2.data.isEmpty = false) :
    parse_subtitle_xml (Except.ok (spanBrDoc b s1 s2)) =
      Except.ok [(some b, s1 ++ " " ++ "\n" ++ " " ++ s2)] := by
  have hstep : parse_subtitle_xml (Except.ok (spanBrDoc b s1 s2)) =
      Except.ok [mainCueOfP ttmlNs (pSpanBr b s1 s2)] := rfl
  rw [hstep]
  clear hstep
  have hbr : ((ttmlNs ++ "br" : String) == (ttmlNs ++ "span" : String)) =
      false := by decide
  have hy1 : textYield (some s1) = [s1] := by simp [textYield, h1]
  have hy2 : textYield (some s2) = [s2] := by simp [textYield, h2]
  have hyn : textYield (some ("\n" : String)) = ["\n"] := rfl
  have hmain : mainCueOfP ttmlNs (pSpanBr b s1 s2) =
      (some b, pyJoinSpace [s1, "\n", s2]) := by
    simp only [mainCueOfP, pSpanBr, XmlElem.children, XmlElem.tag,
      XmlElem.text, List.flatMap_cons, List.flatMap_nil, beq_self_eq_true,
      if_true, hbr, if_false, List.append_nil, List.append_assoc]
    simp [hy1, hy2, hyn]
    rfl
  rw [hmain]
  have hjoin : pyJoinSpace [s1, "\n", s2] =
      s1 ++ " " ++ "\n" ++ " " ++ s2 := by
    apply String.ext
    simp [pyJoinSpace, String.data_append]
  rw [hjoin]

theorem c6_witness :
    parse_subtitle_xml
      (Except.ok (spanBrDoc "00:00:02.500" "Line one" "Line two")) =
      Except.ok [(some "00:00:02.500",
        "Line one" ++ " " ++ "\n" ++ " " ++ "Line two")] :=
  c6_span_br_text "00:00:02.500" "Line one" "Line two" rfl rfl

/-- Claim C6 counterexample: for the spec's example paragraph,
`parse_subtitle_xml` yields text `"Line one \n Line two"` — the marker is
space-joined like any other segment, not inserted literally — and
`parse_ebu_tt` (which joins `itertext` of the paragraph) yields
`"Line one Line two"` with no line-break marker at all. -/
theorem c6_counterexample :
    parse_subtitle_xml
      (Except.ok (spanBrDoc "00:00:02.500" "Line one" "Line two")) =
      Except.ok [(some "00:00:02.500", "Line one \n Line two")] ∧
    "Line one \n Line two" ≠ "Line one" ++ "\n" ++ "Line two" ∧
    parse_ebu_tt
      (Except.ok (spanBrDoc "00:00:02.500" "Line one" "Line two")) =
      some ["[00:00:02.500]: Line one Line two"] ∧
    hasSubstrL "\n".data "Line one Line two".data = false :=
  ⟨rfl, by decide, rfl, by decide⟩

/-- Claim C7, amended: for `parse_ebu_tt` the cue timestamp is the raw
`begin` attribute value, defaulting to `"00:00:00.000"` when the attribute
is absent; for `parse_subtitle_xml` the timestamp is the raw optional
attribute with no default — an absent `begin` yields `None` (see the
counterexample). -/
theorem c7_begin_attribute (p : XmlElem) :
    (∀ c, ebuCue p = some c →
      ((getAttr p "begin" = none → c.1 = "00:00:00.000") ∧
       (∀ v, getAttr p "begin" = some v → c.1 = v))) ∧
    (∀ ns, (mainCueOfP ns p).1 = getAttr p "begin") := by
  constructor
  · intro c hc
    have hfst : c.1 = (getAttr p "begin").getD "00:00:00.000" := by
      simp only [ebuCue] at hc
      split at hc
      · exact absurd hc (by simp)
      · cases hc; rfl
    constructor
    · intro hnone; rw [hfst, hnone]; rfl
    · intro v hv; rw [hfst, hv]; rfl
  · intro ns; rfl

/-- A TTML paragraph without a `begin` attribute. -/
def pNoBegin : XmlElem :=
  XmlElem.mk "\x7bhttp://www.w3.org/ns/ttml\x7dp" [] none
    [XmlElem.mk "\x7bhttp://www.w3.org/ns/ttml\x7dspan" [] (some "Hi")
      [] none] none

/-- A TTML document whose only paragraph lacks a `begin` attribute. -/
def docNoBegin : XmlElem :=
  XmlElem.mk "\x7bhttp://www.w3.org/ns/ttml\x7dtt" [] none [pNoBegin] none

/-- Claim C7 counterexample: when `begin` is absent, `parse_subtitle_xml`
emits the timestamp `None` — not the claimed default `"00:00:00.000"`;
`parse_ebu_tt` is the parser that applies the default. -/
theorem c7_counterexample :
    parse_subtitle_xml (Except.ok docNoBegin) = Except.ok [(none, "Hi")] ∧
    (none : Option String) ≠ some "00:00:00.000" ∧
    parse_ebu_tt (Except.ok docNoBegin) = some ["[00:00:00.000]: Hi"] :=
  ⟨rfl, by decide, rfl⟩

theorem c7_witness :
    ("00:00:00.000", "Hi").1 = "00:00:00.000" :=
  ((c7_begin_attribute pNoBegin).1 ("00:00:00.000", "Hi") (by decide)).1 rfl

theorem c10_witness :
    ("00:00:05.000", "text").1 =
      startOfTimeLine (pyStrip "00:00:05.000 --> 00:00:06.000") ∧
    ("00:00:05.000", "text").2 = pyStrip (pyJoinSpace
      (((["00:00:01.000 --> 00:00:02.000", "00:00:05.000 --> 00:00:06.000",
          "text"].filter fun x => !containsArrow x).map pyStrip).filter
        fun t => !pyIsdigit t)) :=
  c10_last_arrow_wins
    ["00:00:01.000 --> 00:00:02.000", "00:00:05.000 --> 00:00:06.000", "text"]
    "00:00:05.000 --> 00:00:06.000" (by decide)
    ("00:00:05.000", "text") (by decide)

end SubtitleToPdf
